import Mathlib

/-!
Verification development for the PAM-MultiVendor-Lab rotation and
synchronization engine.

This file gives a shallow embedding of the algorithmic core of the
repository and proves (or refutes) the specification's claims about it:

* `SecretSyncManager` from `src/integrations/secret_sync.py`
  (`sync_secret`, `_sync_vault_to_aws`, `_sync_aws_to_vault`,
  `_sync_bidirectional`, `_log_audit`);
* `RotationEventHandler` from `scripts/aws/rotation_handler.py`
  (`handle_aws_rotation_event` and the four step handlers);
* `AWSSecretsConnector.calculate_secret_health_score` from
  `src/integrations/aws_secrets_connector.py`;
* `VaultToDelineaMigrator.map_fields` from `scripts/vault_to_delinea.py`.

Conventions of the embedding:
* timestamps are natural numbers (the Python code compares ISO-8601
  strings of `datetime` values; order on `Nat` mirrors chronological
  order);
* the two stores behind the connectors are association lists
  `List (String × _)` keyed by secret name; a Python call that raises
  an exception which a caller catches is embedded as the caller's
  handled outcome;
* `datetime.now` is an explicit `now : Nat` parameter;
* the external authentication prober and the freshly generated random
  password are explicit parameters (in the Python code the prober is an
  external collaborator stubbed to `True`, and the password comes from
  `secrets.choice`).
-/

namespace PamLab

/-- Generic in-place insert-or-replace on an association list, mirroring
Python `dict` assignment `d[k] = v` (replacing keeps the key's position,
a fresh key is appended at the end; keys are unique as in a dict). -/
def dictInsert {α : Type} : List (String × α) → String → α →
    List (String × α)
  | [], k, v => [(k, v)]
  | (k1, a) :: rest, k, v =>
    if k1 == k then (k, v) :: rest else (k1, a) :: dictInsert rest k v

/-- In-place update of the entry at key `k` (if any), mirroring a Python
mutation of the dict value object, as in
`self._mock_secrets[name]['secret_value'] = secret_value`. -/
def update_entry {α : Type} (f : α → α) : List (String × α) → String →
    List (String × α)
  | [], _ => []
  | (k1, a) :: rest, k =>
    if k1 == k then (k1, f a) :: rest else (k1, a) :: update_entry f rest k

/-! ## Secret synchronization (`src/integrations/secret_sync.py`) -/

/-- `SyncDirection` enum. -/
inductive SyncDirection
  | vault_to_aws
  | aws_to_vault
  | bidirectional
deriving DecidableEq, Repr

/-- String value of the enum member, as in the Python `Enum`. -/
def SyncDirection.value : SyncDirection → String
  | .vault_to_aws => "vault_to_aws"
  | .aws_to_vault => "aws_to_vault"
  | .bidirectional => "bidirectional"

/-- `ConflictResolution` enum. -/
inductive ConflictResolution
  | overwrite_destination
  | skip
  | use_newest
  | manual
deriving DecidableEq, Repr

/-- A secret as read from Vault KV v2: `response['data']` plus the
`metadata.version` and `metadata.created_time` fields the sync manager
reads (each accessed with `.get`, hence optional). -/
structure VaultSecret where
  data : String
  version : Option Nat
  created_time : Option Nat
deriving DecidableEq, Repr

/-- A secret as returned by `AWSSecretsConnector.get_secret`:
`secret_data`, `version_id` and the optional `created_date`. -/
structure AwsSecret where
  secret_data : String
  version_id : String
  created_date : Option Nat
deriving DecidableEq, Repr

/-- `SyncResult` dataclass. -/
structure SyncResult where
  secret_name : String
  direction : String
  status : String
  message : String
  timestamp : Nat
  vault_version : Option Nat := none
  aws_version : Option String := none
deriving DecidableEq, Repr

/-- `SyncAuditEntry` dataclass; the `details` dict holds at most the two
keys `aws_version` and `vault_version`, flattened here into two optional
fields. -/
structure SyncAuditEntry where
  operation : String
  secret_name : String
  direction : String
  status : String
  user : String
  timestamp : Nat
  details_aws_version : Option String
  details_vault_version : Option Nat
deriving DecidableEq, Repr

/-- The mutable state of a `SecretSyncManager`: the two stores reached
through the Vault client and the AWS connector, the in-memory audit log,
and a counter of store-mutating `write` calls (each Vault
`create_or_update_secret`, AWS `create_secret` or AWS `update_secret`
increments it). -/
structure SyncState where
  vaultStore : List (String × VaultSecret)
  awsStore : List (String × AwsSecret)
  audit_log : List SyncAuditEntry
  writes : Nat
deriving DecidableEq, Repr

/-- `_get_vault_secret`: a read through the Vault client; any exception
(including `InvalidPath`) is caught and becomes `None`. -/
def get_vault_secret (st : SyncState) (name : String) : Option VaultSecret :=
  st.vaultStore.lookup name

/-- `AWSSecretsConnector.get_secret` viewed as a partial read: the Python
call raises `ValueError` when the secret is absent; call sites embed that
exceptional outcome explicitly. -/
def aws_get_secret (st : SyncState) (name : String) : Option AwsSecret :=
  st.awsStore.lookup name

/-- `_check_vault_secret_exists`. -/
def check_vault_secret_exists (st : SyncState) (name : String) : Bool :=
  (get_vault_secret st name).isSome

/-- `_check_aws_secret_exists` (catches the `ValueError` from
`get_secret`). -/
def check_aws_secret_exists (st : SyncState) (name : String) : Bool :=
  (aws_get_secret st name).isSome

/-- `_write_vault_secret` via KV v2 `create_or_update_secret`: stores the
data as a new version whose creation time is `now`. -/
def write_vault_secret (now : Nat) (st : SyncState) (name : String)
    (data : String) : SyncState :=
  let newVersion :=
    match st.vaultStore.lookup name with
    | some vs => vs.version.getD 0 + 1
    | none => 1
  { st with
    vaultStore := dictInsert st.vaultStore name ⟨data, some newVersion, some now⟩
    writes := st.writes + 1 }

/-- `AWSSecretsConnector.update_secret`: replaces the stored value and
returns the new `version_id` (the in-repo mock connector returns `"v2"`
and keeps the record's creation date). -/
def aws_update_secret (st : SyncState) (name : String) (value : String) :
    String × SyncState :=
  let newStore :=
    update_entry (fun a => { a with secret_data := value }) st.awsStore name
  ("v2", { st with awsStore := newStore, writes := st.writes + 1 })

/-- `AWSSecretsConnector.create_secret`: stores a fresh record created at
`now` and returns its `version_id` (`"v1"` in the in-repo mock
connector). -/
def aws_create_secret (now : Nat) (st : SyncState) (name : String)
    (value : String) : String × SyncState :=
  ("v1",
   { st with
     awsStore := dictInsert st.awsStore name ⟨value, "v1", some now⟩
     writes := st.writes + 1 })

/-- `_log_audit`: appends one `SyncAuditEntry` with `user="system"` to the
in-memory audit log. -/
def log_audit (now : Nat) (st : SyncState) (operation name direction
    status : String) (details_aws : Option String)
    (details_vault : Option Nat) : SyncState :=
  { st with
    audit_log := st.audit_log ++
      [{ operation := operation
         secret_name := name
         direction := direction
         status := status
         user := "system"
         timestamp := now
         details_aws_version := details_aws
         details_vault_version := details_vault }] }

/-- `_sync_vault_to_aws`. -/
def sync_vault_to_aws (now : Nat) (name : String)
    (conflict_resolution : ConflictResolution) (dry_run : Bool)
    (st : SyncState) : SyncResult × SyncState :=
  match get_vault_secret st name with
  | none =>
    ({ secret_name := name
       direction := "vault_to_aws"
       status := "failed"
       message := "Secret not found in Vault"
       timestamp := now }, st)
  | some vault_secret =>
    let aws_exists := check_aws_secret_exists st name
    if dry_run then
      let action := if aws_exists then "update" else "create"
      ({ secret_name := name
         direction := "vault_to_aws"
         status := "skipped"
         message := s!"Dry run: Would {action} secret in AWS"
         timestamp := now
         vault_version := vault_secret.version }, st)
    else if aws_exists then
      if conflict_resolution = ConflictResolution.skip then
        ({ secret_name := name
           direction := "vault_to_aws"
           status := "skipped"
           message := "Secret exists in AWS, skipping per conflict resolution"
           timestamp := now }, st)
      else
        let (vid, st1) := aws_update_secret st name vault_secret.data
        let st2 := log_audit now st1 "sync" name "vault_to_aws" "success"
          (some vid) vault_secret.version
        ({ secret_name := name
           direction := "vault_to_aws"
           status := "success"
           message := "Updated secret in AWS"
           timestamp := now
           vault_version := vault_secret.version
           aws_version := some vid }, st2)
    else
      let (vid, st1) := aws_create_secret now st name vault_secret.data
      let st2 := log_audit now st1 "sync" name "vault_to_aws" "success"
        (some vid) vault_secret.version
      ({ secret_name := name
         direction := "vault_to_aws"
         status := "success"
         message := "Created secret in AWS"
         timestamp := now
         vault_version := vault_secret.version
         aws_version := some vid }, st2)

/-- `_sync_aws_to_vault`. When the secret is absent from AWS,
`get_secret` raises `ValueError(f"Secret {name} not found")`, which
propagates to `sync_secret`'s handler and becomes a failed result with
the exception text as message. -/
def sync_aws_to_vault (now : Nat) (name : String)
    (conflict_resolution : ConflictResolution) (dry_run : Bool)
    (st : SyncState) : SyncResult × SyncState :=
  match aws_get_secret st name with
  | none =>
    ({ secret_name := name
       direction := "aws_to_vault"
       status := "failed"
       message := s!"Secret {name} not found"
       timestamp := now }, st)
  | some aws_secret =>
    let vault_exists := check_vault_secret_exists st name
    if dry_run then
      let action := if vault_exists then "update" else "create"
      ({ secret_name := name
         direction := "aws_to_vault"
         status := "skipped"
         message := s!"Dry run: Would {action} secret in Vault"
         timestamp := now
         aws_version := some aws_secret.version_id }, st)
    else if vault_exists && conflict_resolution = ConflictResolution.skip then
      ({ secret_name := name
         direction := "aws_to_vault"
         status := "skipped"
         message := "Secret exists in Vault, skipping per conflict resolution"
         timestamp := now }, st)
    else
      let st1 := write_vault_secret now st name aws_secret.secret_data
      let st2 := log_audit now st1 "sync" name "aws_to_vault" "success"
        (some aws_secret.version_id) none
      ({ secret_name := name
         direction := "aws_to_vault"
         status := "success"
         message := "Synced secret from AWS to Vault"
         timestamp := now
         aws_version := some aws_secret.version_id }, st2)

/-- The conflict `SyncResult` returned by `_sync_bidirectional` when no
automatic decision is made. -/
def conflictResult (now : Nat) (name : String) : SyncResult :=
  { secret_name := name
    direction := "bidirectional"
    status := "conflict"
    message := "Secret exists in both systems, manual resolution required"
    timestamp := now }

/-- `_sync_bidirectional`. With `USE_NEWEST` and both timestamps present
the code compares `vault_time > aws_time.isoformat()` and otherwise falls
through to the conflict result. -/
def sync_bidirectional (now : Nat) (name : String)
    (conflict_resolution : ConflictResolution) (dry_run : Bool)
    (st : SyncState) : SyncResult × SyncState :=
  let vault_exists := check_vault_secret_exists st name
  let aws_exists := check_aws_secret_exists st name
  if !vault_exists && !aws_exists then
    ({ secret_name := name
       direction := "bidirectional"
       status := "failed"
       message := "Secret not found in either system"
       timestamp := now }, st)
  else if vault_exists && !aws_exists then
    sync_vault_to_aws now name conflict_resolution dry_run st
  else if aws_exists && !vault_exists then
    sync_aws_to_vault now name conflict_resolution dry_run st
  else
    if conflict_resolution = ConflictResolution.use_newest then
      match get_vault_secret st name, aws_get_secret st name with
      | some vault_secret, some aws_secret =>
        match vault_secret.created_time, aws_secret.created_date with
        | some vault_time, some aws_time =>
          if aws_time < vault_time then
            sync_vault_to_aws now name ConflictResolution.overwrite_destination dry_run st
          else
            sync_aws_to_vault now name ConflictResolution.overwrite_destination dry_run st
        | _, _ => (conflictResult now name, st)
      | _, _ => (conflictResult now name, st)
    else
      (conflictResult now name, st)

/-- `sync_secret`: dispatch on the direction. -/
def sync_secret (now : Nat) (name : String) (direction : SyncDirection)
    (conflict_resolution : ConflictResolution) (dry_run : Bool)
    (st : SyncState) : SyncResult × SyncState :=
  match direction with
  | .vault_to_aws => sync_vault_to_aws now name conflict_resolution dry_run st
  | .aws_to_vault => sync_aws_to_vault now name conflict_resolution dry_run st
  | .bidirectional => sync_bidirectional now name conflict_resolution dry_run st

/-! ## Rotation event handling (`scripts/aws/rotation_handler.py`) -/

/-- `RotationStatus` enum. -/
inductive RotationStatus
  | pending
  | in_progress
  | success
  | failed
  | rolled_back
deriving DecidableEq, Repr

/-- The credential dictionary produced by `_generate_secret_value` and
held by the secrets store during rotation. -/
structure SecretValue where
  username : String
  password : String
  engine : String
  host : String
  port : Nat
deriving DecidableEq, Repr

/-- `_generate_secret_value`: the random 32-character password drawn from
`secrets.choice` is the explicit `password` argument. -/
def generate_secret_value (secret_name : String) (password : String) :
    SecretValue :=
  { username := s!"{secret_name}_user"
    password := password
    engine := "postgresql"
    host := "localhost"
    port := 5432 }

/-- `RotationResult` dataclass (fields used by the event handlers). -/
structure RotationResult where
  secret_name : String
  status : RotationStatus
  start_time : Nat
  end_time : Option Nat
  duration_seconds : Option Nat
  message : String
  error : Option String := none
deriving DecidableEq, Repr

/-- `RotationSchedule` dataclass. -/
structure RotationSchedule where
  secret_name : String
  rotation_interval_days : Nat
  last_rotation : Option Nat
  next_rotation : Option Nat
  enabled : Bool
deriving DecidableEq, Repr

/-- Mutable state of a `RotationEventHandler`: the AWS secrets store it
reads and writes through its connector, the rotation history, and the
schedules map. -/
structure RotState where
  store : List (String × SecretValue)
  rotation_history : List RotationResult
  rotation_schedules : List (String × RotationSchedule)
deriving DecidableEq, Repr

/-- The Lambda-shaped response of `handle_aws_rotation_event`:
`statusCode` plus the body fields (`message`/`step` on 200, `error` on
500). -/
structure LambdaResponse where
  statusCode : Nat
  body_message : Option String
  body_step : Option String
  body_error : Option String
deriving DecidableEq, Repr

/-- A 200 response with the given message and step. -/
def ok200 (message step : String) : LambdaResponse :=
  { statusCode := 200
    body_message := some message
    body_step := some step
    body_error := none }

/-- The 500 response produced when a step handler raises and
`handle_aws_rotation_event` catches the exception. -/
def err500 (error : String) : LambdaResponse :=
  { statusCode := 500
    body_message := none
    body_step := none
    body_error := some error }

/-- Python substring containment `pat in s` over character lists (true
for the empty pattern). -/
def containsSub : List Char → List Char → Bool
  | _, [] => true
  | [], _ => false
  | c :: rest, pat => (pat.isPrefixOf (c :: rest)) || containsSub rest pat

/-- The characters of `l` strictly before its first occurrence of the
(non-empty) separator `sep`; all of `l` when `sep` does not occur. This
is `l.split(sep)[0]`. -/
def beforeFirst (sep : List Char) : List Char → List Char
  | [] => []
  | c :: rest =>
    if sep.isPrefixOf (c :: rest) then []
    else c :: beforeFirst sep rest

/-- The characters of `l` strictly after its first occurrence of the
(non-empty) separator `sep`, or `none` when `sep` does not occur. -/
def afterFirst (sep : List Char) : List Char → Option (List Char)
  | [] => none
  | c :: rest =>
    if sep.isPrefixOf (c :: rest) then some ((c :: rest).drop sep.length)
    else afterFirst sep rest

/-- `_extract_secret_name_from_arn`: when `':secret:' in arn`, the Python
code takes `arn.split(':secret:')[1].split('-')[0]` — the text after the
first `:secret:`, truncated at the next `:secret:` and then at the first
`-`; otherwise the input is returned unchanged. -/
def extract_secret_name_from_arn (arn : String) : String :=
  match afterFirst ":secret:".data arn.data with
  | some tail =>
    String.mk (beforeFirst "-".data (beforeFirst ":secret:".data tail))
  | none => arn

/-- `_handle_create_secret` (non-mock path): reads the current secret
(`get_secret` raises `ValueError` when absent, surfacing as a 500
response) and then calls `update_secret` with the freshly generated
value, overwriting the stored secret. The request token is not
consulted. -/
def handle_create_secret (st : RotState) (secret_name new_password : String) :
    LambdaResponse × RotState :=
  match st.store.lookup secret_name with
  | none => (err500 s!"Secret {secret_name} not found", st)
  | some _ =>
    (ok200 "Secret created successfully" "createSecret",
     { st with
       store := dictInsert st.store secret_name
         (generate_secret_value secret_name new_password) })

/-- `_handle_set_secret` (non-mock path): reads the secret (absent ⇒ the
`ValueError` becomes a 500) and calls the external target-system updater,
whose boolean result the code ignores. -/
def handle_set_secret (st : RotState) (secret_name : String) :
    LambdaResponse × RotState :=
  match st.store.lookup secret_name with
  | none => (err500 s!"Secret {secret_name} not found", st)
  | some _ => (ok200 "Secret set in target system" "setSecret", st)

/-- `_handle_test_secret` (non-mock path): reads the secret and invokes
the external authentication prober on it; a `false` answer raises
`Exception("Secret test failed - authentication unsuccessful")`, which
the event handler turns into a 500. -/
def handle_test_secret (prober : String → SecretValue → Bool)
    (st : RotState) (secret_name : String) : LambdaResponse × RotState :=
  match st.store.lookup secret_name with
  | none => (err500 s!"Secret {secret_name} not found", st)
  | some v =>
    if prober secret_name v then
      (ok200 "Secret tested successfully" "testSecret", st)
    else
      (err500 "Secret test failed - authentication unsuccessful", st)

/-- `_update_rotation_schedule`: when a schedule exists for the secret,
set `last_rotation := now` and `next_rotation := now + interval_days`;
otherwise do nothing. -/
def update_rotation_schedule (now : Nat) (st : RotState)
    (secret_name : String) : RotState :=
  match st.rotation_schedules.lookup secret_name with
  | none => st
  | some sch =>
    { st with
      rotation_schedules := dictInsert st.rotation_schedules secret_name
        { sch with
          last_rotation := some now
          next_rotation := some (now + sch.rotation_interval_days) } }

/-- `_handle_finish_secret`: appends a `SUCCESS` `RotationResult` whose
start time is the event timestamp and whose duration is the elapsed time,
then advances the schedule. -/
def handle_finish_secret (now : Nat) (st : RotState)
    (secret_name : String) (event_timestamp : Nat) :
    LambdaResponse × RotState :=
  let result : RotationResult :=
    { secret_name := secret_name
      status := RotationStatus.success
      start_time := event_timestamp
      end_time := some now
      duration_seconds := some (now - event_timestamp)
      message := "Rotation completed successfully" }
  let st1 := { st with rotation_history := st.rotation_history ++ [result] }
  let st2 := update_rotation_schedule now st1 secret_name
  (ok200 "Rotation finished successfully" "finishSecret", st2)

/-- `handle_aws_rotation_event`: builds the `RotationEvent` (timestamped
`now`) and dispatches on the step string; an unknown step raises
`ValueError`, caught into a 500 response. -/
def handle_aws_rotation_event (now : Nat)
    (prober : String → SecretValue → Bool) (new_password : String)
    (secret_id token step : String) (st : RotState) :
    LambdaResponse × RotState :=
  let secret_name := extract_secret_name_from_arn secret_id
  if step = "createSecret" then
    handle_create_secret st secret_name new_password
  else if step = "setSecret" then
    handle_set_secret st secret_name
  else if step = "testSecret" then
    handle_test_secret prober st secret_name
  else if step = "finishSecret" then
    handle_finish_secret now st secret_name now
  else
    (err500 s!"Unknown rotation step: {step}", st)

/-- Modelled from the spec: the external phased-rotation caller (the AWS
rotation scheduler, §6 "Rotation event") is not part of the repository;
per the contract it invokes the steps in order and stops at the first
step whose response is not 200. This driver runs a given step list that
way, collecting the status codes of the steps actually invoked. -/
def run_steps (now : Nat) (prober : String → SecretValue → Bool)
    (new_password secret_id token : String) :
    List String → RotState → List Nat × RotState
  | [], st => ([], st)
  | step :: rest, st =>
    let (r, st1) :=
      handle_aws_rotation_event now prober new_password secret_id token step st
    if r.statusCode = 200 then
      let (codes, st2) := run_steps now prober new_password secret_id token rest st1
      (200 :: codes, st2)
    else
      ([r.statusCode], st1)

/-- The four rotation steps in protocol order. -/
def rotation_steps : List String :=
  ["createSecret", "setSecret", "testSecret", "finishSecret"]

/-- One full rotation attempt: the four steps in order, halting at the
first failure (see `run_steps`). -/
def run_rotation (now : Nat) (prober : String → SecretValue → Bool)
    (new_password secret_id token : String) (st : RotState) :
    List Nat × RotState :=
  run_steps now prober new_password secret_id token rotation_steps st

/-! ## Health scoring (`src/integrations/aws_secrets_connector.py`) -/

/-- The fields of `SecretMetadata` read by the health scorer; `tags` is
the list of tag keys, `last_changed` an optional timestamp measured in
days. -/
structure SecretMetadata where
  name : String
  last_changed : Option Nat
  rotation_enabled : Bool
  tags : List String
deriving DecidableEq, Repr

/-- The required-tag set checked by the health scorer. -/
def required_tags : List String := ["Environment", "Owner", "Application"]

/-- The dictionary returned by `calculate_secret_health_score`. -/
structure HealthReport where
  secret_name : String
  health_score : Int
  status : String
  issues : List String
  last_changed_days : Option Nat
  rotation_enabled : Bool
deriving DecidableEq, Repr

/-- `calculate_secret_health_score`, with `now` standing for
`datetime.now` at day resolution (so `days_old = now - last_changed`,
matching `timedelta.days`; a negative Python day count triggers no
bracket, exactly as saturating `Nat` subtraction does). -/
def calculate_secret_health_score (now : Nat) (m : SecretMetadata) :
    HealthReport :=
  let score0 : Int := 100
  let days_old_opt := m.last_changed.map (fun lc => now - lc)
  let score1 :=
    match days_old_opt with
    | some d =>
      if d > 365 then score0 - 40
      else if d > 180 then score0 - 25
      else if d > 90 then score0 - 10
      else score0
    | none => score0
  let issues1 :=
    match days_old_opt with
    | some d =>
      if d > 365 then [s!"Secret is {d} days old (very stale)"]
      else if d > 180 then [s!"Secret is {d} days old (stale)"]
      else if d > 90 then [s!"Secret is {d} days old"]
      else []
    | none => []
  let score2 := if !m.rotation_enabled then score1 - 20 else score1
  let issues2 :=
    if !m.rotation_enabled then issues1 ++ ["Automatic rotation not enabled"]
    else issues1
  let missing_tags := required_tags.filter (fun t => !(m.tags.contains t))
  let score3 := if !missing_tags.isEmpty then score2 - 10 else score2
  let missing_joined := String.intercalate ", " missing_tags
  let issues3 :=
    if !missing_tags.isEmpty then
      issues2 ++ [s!"Missing tags: {missing_joined}"]
    else issues2
  let status :=
    if score3 ≥ 90 then "excellent"
    else if score3 ≥ 75 then "good"
    else if score3 ≥ 50 then "fair"
    else "poor"
  { secret_name := m.name
    health_score := max 0 score3
    status := status
    issues := issues3
    last_changed_days := days_old_opt
    rotation_enabled := m.rotation_enabled }

/-! ## Field mapping (`scripts/vault_to_delinea.py`) -/

/-- `DEFAULT_FIELD_MAPPINGS` in declaration (insertion) order. -/
def DEFAULT_FIELD_MAPPINGS : List (String × String) :=
  [("password", "Password"),
   ("passwd", "Password"),
   ("secret", "Password"),
   ("pass", "Password"),
   ("username", "Username"),
   ("user", "Username"),
   ("login", "Username"),
   ("account", "Username"),
   ("host", "Machine"),
   ("server", "Server"),
   ("hostname", "Machine"),
   ("machine", "Machine"),
   ("ip", "Machine"),
   ("address", "Machine"),
   ("database", "Database"),
   ("db", "Database"),
   ("dbname", "Database"),
   ("url", "URL"),
   ("endpoint", "Endpoint URL"),
   ("uri", "URL"),
   ("api_key", "API Key"),
   ("apikey", "API Key"),
   ("api-key", "API Key"),
   ("api_secret", "API Secret"),
   ("client_id", "Client ID"),
   ("client_secret", "Client Secret"),
   ("notes", "Notes"),
   ("description", "Notes"),
   ("comment", "Notes")]

/-- Python's `pat in s` substring test (the empty pattern is contained in
every string). -/
def strContains (s pat : String) : Bool :=
  containsSub s.data pat.data

/-- Core of Python `str.title()`: the first character of every maximal
alphabetic run is uppercased, the rest lowercased, other characters kept
(ASCII view, sufficient for the mapper's field names). -/
def pyTitleAux : List Char → Bool → List Char
  | [], _ => []
  | c :: rest, prevAlpha =>
    if c.isAlpha then
      (if prevAlpha then c.toLower else c.toUpper) :: pyTitleAux rest true
    else
      c :: pyTitleAux rest false

/-- Python `str.title()`. -/
def pyTitle (s : String) : String := String.mk (pyTitleAux s.data false)

/-- Python `str.lower()` (ASCII view). -/
def pyLower (s : String) : String := String.mk (s.data.map Char.toLower)

/-- Python `s.replace("_", " ")` — the pattern is a single character, so
the replacement is a character map. -/
def replaceUnderscores (s : String) : String :=
  String.mk (s.data.map (fun c => if c = '_' then ' ' else c))

/-- The pass-through normalization for unmatched keys:
`vault_key.replace("_", " ").title()`. -/
def normalize_key (key : String) : String :=
  pyTitle (replaceUnderscores key)

/-- The inner `for pattern, target in field_mappings.items(): ... break`
loop of `map_fields`: first rule (in rule order) whose pattern is a
substring of the lowercased key. -/
def firstPatternMatch (mappings : List (String × String))
    (key_lower : String) : Option String :=
  match mappings with
  | [] => none
  | (pat, target) :: rest =>
    if strContains key_lower pat then some target
    else firstPatternMatch rest key_lower

/-- The body of `map_fields`'s loop for one payload item: exact
(lower-cased) dict hit first, else first substring rule, else Title-Case
pass-through plus an append to `skipped`. -/
def map_fields_step (field_mappings : List (String × String))
    (acc : List (String × String) × List String) (kv : String × String) :
    List (String × String) × List String :=
  let key := kv.1
  let value := kv.2
  let key_lower := pyLower key
  match field_mappings.lookup key_lower with
  | some target => (dictInsert acc.1 target value, acc.2)
  | none =>
    match firstPatternMatch field_mappings key_lower with
    | some target => (dictInsert acc.1 target value, acc.2)
    | none =>
      (dictInsert acc.1 (normalize_key key) value, acc.2 ++ [key])

/-- `map_fields`: folds over the payload items in iteration order,
resolving each key against the mapping dict exactly as the Python loop
does (`mapped` is a dict, so a repeated destination overwrites;
unmatched keys go in Title Case to `mapped` and are appended to
`skipped`). -/
def map_fields (field_mappings : List (String × String))
    (vault_data : List (String × String)) :
    List (String × String) × List String :=
  vault_data.foldl (map_fields_step field_mappings) ([], [])

/-! ## Spec-side definitions

These follow the specification's words (not the code) and are compared
with the code-derived definitions above in the refinement theorems. -/

/-- Spec §4.5: the age penalty uses the single largest-matching bracket
only (>365d: 40; >180d: 25; >90d: 10; mutually exclusive). -/
def specAgePenalty (days_old : Nat) : Int :=
  if days_old > 365 then 40
  else if days_old > 180 then 25
  else if days_old > 90 then 10
  else 0

/-- Spec §4.5: start at 100, subtract the age penalty, 20 when rotation
is not enabled, and a flat 10 when any required tag is missing; clamp to
at least 0. -/
def specHealthScore (now : Nat) (m : SecretMetadata) : Int :=
  let age : Int :=
    match m.last_changed with
    | some lc => specAgePenalty (now - lc)
    | none => 0
  let rot : Int := if m.rotation_enabled then 0 else 20
  let tag : Int := if ∃ t ∈ required_tags, t ∉ m.tags then 10 else 0
  max 0 (100 - age - rot - tag)

/-- Spec §4.5: bucket thresholds ≥90 excellent, ≥75 good, ≥50 fair, else
poor. -/
def specBucket (score : Int) : String :=
  if score ≥ 90 then "excellent"
  else if score ≥ 75 then "good"
  else if score ≥ 50 then "fair"
  else "poor"

/-- Spec §4.3 resolution order for one key: exact case-insensitive match
first, else the first rule (in rule order) whose pattern is a
case-insensitive substring of the key. -/
def spec_resolve_key (mappings : List (String × String)) (key : String) :
    Option String :=
  match mappings.lookup (pyLower key) with
  | some target => some target
  | none =>
    (mappings.find? (fun pr => strContains (pyLower key) pr.1)).map Prod.snd

/-- One payload item processed per the spec's resolution description:
resolved keys write to the resolved destination, unresolved keys pass
through under the normalized name and are appended to `skipped`. -/
def spec_map_step (mappings : List (String × String))
    (acc : List (String × String) × List String) (kv : String × String) :
    List (String × String) × List String :=
  match spec_resolve_key mappings kv.1 with
  | some target => (dictInsert acc.1 target kv.2, acc.2)
  | none => (dictInsert acc.1 (normalize_key kv.1) kv.2, acc.2 ++ [kv.1])

/-- Spec §4.3 `mapFields` as a fold of the per-key resolution. -/
def spec_map_fields (mappings : List (String × String))
    (vault_data : List (String × String)) :
    List (String × String) × List String :=
  vault_data.foldl (spec_map_step mappings) ([], [])

/-! ## Concrete fixtures for counterexamples and witnesses -/

/-- The audit-appending discipline actually implemented by the sync
manager: exactly the `success` outcomes append one entry (operation
`"sync"`, status `"success"`, actor `"system"`, the result's direction
and the current timestamp); any other outcome leaves the log unchanged. -/
def auditOk (now : Nat) (name : String) (st : SyncState)
    (p : SyncResult × SyncState) : Prop :=
  (p.1.status = "success" →
    ∃ e, p.2.audit_log = st.audit_log ++ [e] ∧
      e.operation = "sync" ∧ e.status = "success" ∧ e.user = "system" ∧
      e.secret_name = name ∧ e.direction = p.1.direction ∧
      e.timestamp = now) ∧
  (p.1.status ≠ "success" → p.2.audit_log = st.audit_log)

/-- A state with the same secret on both sides and equal creation
timestamps. -/
def st_tie : SyncState :=
  { vaultStore := [("db", ⟨"vault-data", some 3, some 100⟩)]
    awsStore := [("db", ⟨"aws-data", "v7", some 100⟩)]
    audit_log := []
    writes := 0 }

/-- A state with the secret on both sides where Vault's copy is strictly
newer. -/
def st_vault_newer : SyncState :=
  { vaultStore := [("db", ⟨"vault-data", some 3, some 200⟩)]
    awsStore := [("db", ⟨"aws-data", "v7", some 100⟩)]
    audit_log := []
    writes := 0 }

/-- A state with the secret on both sides but no Vault creation
timestamp. -/
def st_no_vault_time : SyncState :=
  { vaultStore := [("db", ⟨"vault-data", some 3, none⟩)]
    awsStore := [("db", ⟨"aws-data", "v7", some 100⟩)]
    audit_log := []
    writes := 0 }

/-- The empty sync state. -/
def st_empty : SyncState :=
  { vaultStore := [], awsStore := [], audit_log := [], writes := 0 }

/-- A state where the secret exists only in Vault. -/
def st_vault_only : SyncState :=
  { vaultStore := [("db", ⟨"vault-data", some 3, some 100⟩)]
    awsStore := []
    audit_log := []
    writes := 0 }

/-- The active credential before a rotation in the rotation fixtures. -/
def v0_demo : SecretValue :=
  ⟨"old_user", "old_password", "postgresql", "localhost", 5432⟩

/-- Rotation state holding one secret and no schedule. -/
def st_rot : RotState := ⟨[("db", v0_demo)], [], []⟩

/-- A rotation schedule for the fixture secret. -/
def sched_demo : RotationSchedule :=
  { secret_name := "db"
    rotation_interval_days := 30
    last_rotation := some 1
    next_rotation := some 31
    enabled := true }

/-- Rotation state holding one secret and a schedule for it. -/
def st_rot_sched : RotState := ⟨[("db", v0_demo)], [], [("db", sched_demo)]⟩

end PamLab

/-! ## Theorems -/

namespace PamLab

lemma beq_comm_false {k1 k : String} (hb : (k1 == k) = false) :
    (k == k1) = false := by
  rw [beq_eq_false_iff_ne] at hb ⊢
  exact fun hh => hb hh.symm

lemma lookup_dictInsert {α : Type} (d : List (String × α)) (k : String)
    (v : α) : (dictInsert d k v).lookup k = some v := by
  induction d with
  | nil => simp [dictInsert, List.lookup]
  | cons hd tl ih =>
    rcases hd with ⟨k1, a⟩
    cases hb : k1 == k with
    | true => simp [dictInsert, hb, List.lookup]
    | false => simp [dictInsert, hb, beq_comm_false hb, List.lookup, ih]

lemma lookup_update_entry {α : Type} (f : α → α) (d : List (String × α))
    (k : String) :
    (update_entry f d k).lookup k = (d.lookup k).map f := by
  induction d with
  | nil => rfl
  | cons hd tl ih =>
    rcases hd with ⟨k1, a⟩
    cases hb : k1 == k with
    | true =>
      have hk : k1 = k := eq_of_beq hb
      subst hk
      simp [update_entry, List.lookup]
    | false =>
      simp [update_entry, hb, beq_comm_false hb, List.lookup, ih]

end PamLab

namespace PamLab

lemma vta_dry_state (now : Nat) (name : String)
    (policy : ConflictResolution) (st : SyncState) :
    (sync_vault_to_aws now name policy true st).2 = st := by
  unfold sync_vault_to_aws
  cases hv : get_vault_secret st name with
  | none => rfl
  | some vs => rfl

lemma atv_dry_state (now : Nat) (name : String)
    (policy : ConflictResolution) (st : SyncState) :
    (sync_aws_to_vault now name policy true st).2 = st := by
  unfold sync_aws_to_vault
  cases ha : aws_get_secret st name with
  | none => rfl
  | some a => rfl

lemma bidi_dry_state (now : Nat) (name : String)
    (policy : ConflictResolution) (st : SyncState) :
    (sync_bidirectional now name policy true st).2 = st := by
  unfold sync_bidirectional
  dsimp only
  repeat' split
  all_goals
    first
      | rfl
      | exact vta_dry_state now name _ st
      | exact atv_dry_state now name _ st

lemma sync_secret_dry_state (now : Nat) (name : String)
    (direction : SyncDirection) (policy : ConflictResolution)
    (st : SyncState) :
    (sync_secret now name direction policy true st).2 = st := by
  cases direction with
  | vault_to_aws => exact vta_dry_state now name policy st
  | aws_to_vault => exact atv_dry_state now name policy st
  | bidirectional => exact bidi_dry_state now name policy st

/-- C5: for every secret name, direction and conflict policy, a dry-run
`sync_secret` performs zero `write` calls and leaves both stores'
contents unchanged. -/
theorem dry_run_performs_no_writes (now : Nat) (name : String)
    (direction : SyncDirection) (policy : ConflictResolution)
    (st : SyncState) :
    (sync_secret now name direction policy true st).2.writes = st.writes ∧
    (sync_secret now name direction policy true st).2.vaultStore = st.vaultStore ∧
    (sync_secret now name direction policy true st).2.awsStore = st.awsStore := by
  rw [sync_secret_dry_state]
  exact ⟨rfl, rfl, rfl⟩

/-- C9: `sync_secret` in direction Vault→AWS on a name absent from Vault
returns the failed result whose message is the not-found classification
and leaves the state (in particular the audit log) unchanged. -/
theorem sync_atob_absent_source_notfound (now : Nat) (name : String)
    (policy : ConflictResolution) (dry_run : Bool) (st : SyncState)
    (h : get_vault_secret st name = none) :
    sync_secret now name .vault_to_aws policy dry_run st =
      ({ secret_name := name
         direction := "vault_to_aws"
         status := "failed"
         message := "Secret not found in Vault"
         timestamp := now }, st) := by
  unfold sync_secret sync_vault_to_aws
  rw [h]

end PamLab

namespace PamLab

/-- C9 witness: on the empty state, a Vault→AWS sync of "db" fails with
the not-found message and leaves the audit log empty. -/
theorem sync_atob_absent_source_notfound_witness :
    get_vault_secret st_empty "db" = none ∧
    sync_secret 7 "db" .vault_to_aws .use_newest false st_empty =
      ({ secret_name := "db"
         direction := "vault_to_aws"
         status := "failed"
         message := "Secret not found in Vault"
         timestamp := 7 }, st_empty) :=
  ⟨by decide, sync_atob_absent_source_notfound 7 "db" .use_newest false st_empty (by decide)⟩

/-- C10: with the secret on both sides, policy UseNewest, and either
last-modified timestamp missing, bidirectional sync returns the conflict
result and leaves the state (stores, audit log, write counter)
unchanged. -/
theorem bidirectional_missing_timestamp_conflict (now : Nat) (name : String)
    (dry_run : Bool) (st : SyncState) (vs : VaultSecret) (asr : AwsSecret)
    (hv : get_vault_secret st name = some vs)
    (ha : aws_get_secret st name = some asr)
    (hmiss : vs.created_time = none ∨ asr.created_date = none) :
    sync_secret now name .bidirectional .use_newest dry_run st =
      (conflictResult now name, st) := by
  unfold sync_secret sync_bidirectional check_vault_secret_exists check_aws_secret_exists
  rw [hv, ha]
  rcases hmiss with h | h
  · simp [h]
  · cases hvt : vs.created_time with
    | none => simp [h, hvt]
    | some tv => simp [h, hvt]

end PamLab

namespace PamLab

/-- C10 witness: with both copies present but no Vault creation time,
bidirectional UseNewest sync of "db" returns the conflict result and
changes nothing. -/
theorem bidirectional_missing_timestamp_conflict_witness :
    get_vault_secret st_no_vault_time "db" = some ⟨"vault-data", some 3, none⟩ ∧
    aws_get_secret st_no_vault_time "db" = some ⟨"aws-data", "v7", some 100⟩ ∧
    sync_secret 200 "db" .bidirectional .use_newest false st_no_vault_time =
      (conflictResult 200 "db", st_no_vault_time) :=
  ⟨by decide, by decide,
   bidirectional_missing_timestamp_conflict 200 "db" false st_no_vault_time
     ⟨"vault-data", some 3, none⟩ ⟨"aws-data", "v7", some 100⟩
     (by decide) (by decide) (Or.inl rfl)⟩

/-- C1 counterexample: on equal creation timestamps the bidirectional
UseNewest sync writes from AWS (side B) into Vault (side A) — the AWS
store is untouched and Vault ends up holding the AWS payload — refuting
the claim that ties sync from side A to side B. -/
theorem bidirectional_tie_syncs_aws_to_vault :
    (sync_secret 200 "db" .bidirectional .use_newest false st_tie).1.direction
      = "aws_to_vault" ∧
    (sync_secret 200 "db" .bidirectional .use_newest false st_tie).2.awsStore
      = st_tie.awsStore ∧
    ((sync_secret 200 "db" .bidirectional .use_newest false st_tie).2.vaultStore.lookup "db").map
        VaultSecret.data = some "aws-data" ∧
    (st_tie.vaultStore.lookup "db").map VaultSecret.data = some "vault-data" := by
  decide

/-- C1 amended: with both sides present, both timestamps known and
`dry_run = false`, UseNewest syncs from the strictly newer side to the
older with overwrite semantics (the result is a success, never a skip);
when the timestamps are equal it deterministically syncs from side B
(AWS) to side A (Vault). -/
theorem bidirectional_use_newest_newer_wins (now : Nat) (name : String)
    (st : SyncState) (vs : VaultSecret) (asr : AwsSecret) (tv ta : Nat)
    (hv : get_vault_secret st name = some vs)
    (ha : aws_get_secret st name = some asr)
    (htv : vs.created_time = some tv)
    (hta : asr.created_date = some ta) :
    (ta < tv →
      (sync_secret now name .bidirectional .use_newest false st).1.status = "success" ∧
      (sync_secret now name .bidirectional .use_newest false st).1.direction = "vault_to_aws" ∧
      ((sync_secret now name .bidirectional .use_newest false st).2.awsStore.lookup name).map
          AwsSecret.secret_data = some vs.data ∧
      (sync_secret now name .bidirectional .use_newest false st).2.vaultStore = st.vaultStore) ∧
    (tv ≤ ta →
      (sync_secret now name .bidirectional .use_newest false st).1.status = "success" ∧
      (sync_secret now name .bidirectional .use_newest false st).1.direction = "aws_to_vault" ∧
      ((sync_secret now name .bidirectional .use_newest false st).2.vaultStore.lookup name).map
          VaultSecret.data = some asr.secret_data ∧
      (sync_secret now name .bidirectional .use_newest false st).2.awsStore = st.awsStore) := by
  have hbidi : sync_secret now name .bidirectional .use_newest false st =
      if ta < tv then
        sync_vault_to_aws now name ConflictResolution.overwrite_destination false st
      else
        sync_aws_to_vault now name ConflictResolution.overwrite_destination false st := by
    unfold sync_secret sync_bidirectional check_vault_secret_exists check_aws_secret_exists
    rw [hv, ha]
    simp [htv, hta]
  have hvta : (sync_vault_to_aws now name ConflictResolution.overwrite_destination false st).1.status = "success" ∧
      (sync_vault_to_aws now name ConflictResolution.overwrite_destination false st).1.direction = "vault_to_aws" ∧
      ((sync_vault_to_aws now name ConflictResolution.overwrite_destination false st).2.awsStore.lookup name).map
          AwsSecret.secret_data = some vs.data ∧
      (sync_vault_to_aws now name ConflictResolution.overwrite_destination false st).2.vaultStore = st.vaultStore := by
    unfold sync_vault_to_aws check_aws_secret_exists
    rw [hv, ha]
    simp only [Option.isSome_some, Bool.false_eq_true, if_false, if_true]
    rw [if_neg (by decide : ¬(ConflictResolution.overwrite_destination = ConflictResolution.skip))]
    refine ⟨rfl, rfl, ?_, rfl⟩
    · show ((update_entry (fun a => { a with secret_data := vs.data }) st.awsStore name).lookup name).map AwsSecret.secret_data = some vs.data
      rw [lookup_update_entry]
      have hlook : st.awsStore.lookup name = some asr := ha
      rw [hlook]
      rfl
  have hatv : (sync_aws_to_vault now name ConflictResolution.overwrite_destination false st).1.status = "success" ∧
      (sync_aws_to_vault now name ConflictResolution.overwrite_destination false st).1.direction = "aws_to_vault" ∧
      ((sync_aws_to_vault now name ConflictResolution.overwrite_destination false st).2.vaultStore.lookup name).map
          VaultSecret.data = some asr.secret_data ∧
      (sync_aws_to_vault now name ConflictResolution.overwrite_destination false st).2.awsStore = st.awsStore := by
    unfold sync_aws_to_vault check_vault_secret_exists
    rw [ha, hv]
    simp only [Option.isSome_some, Bool.false_eq_true, if_false, if_true]
    have hc : (true && decide (ConflictResolution.overwrite_destination = ConflictResolution.skip)) = false := by decide
    rw [hc]
    simp only [Bool.false_eq_true, if_false]
    refine ⟨by trivial, by trivial, ?_, by trivial⟩
    · show ((dictInsert st.vaultStore name _).lookup name).map VaultSecret.data = some asr.secret_data
      rw [lookup_dictInsert]
      rfl
  constructor
  · intro hlt
    rw [hbidi, if_pos hlt]
    exact hvta
  · intro hle
    rw [hbidi, if_neg (not_lt.mpr hle)]
    exact hatv

end PamLab

namespace PamLab

/-- C1 witness: on a state where Vault's copy (time 200) is strictly
newer than AWS's (time 100), the bidirectional UseNewest sync succeeds
from Vault to AWS, overwriting the AWS payload. -/
theorem bidirectional_use_newest_newer_wins_witness :
    (100 : Nat) < 200 ∧
    ((sync_secret 300 "db" .bidirectional .use_newest false st_vault_newer).1.status = "success" ∧
     (sync_secret 300 "db" .bidirectional .use_newest false st_vault_newer).1.direction = "vault_to_aws" ∧
     ((sync_secret 300 "db" .bidirectional .use_newest false st_vault_newer).2.awsStore.lookup "db").map
         AwsSecret.secret_data = some (VaultSecret.data ⟨"vault-data", some 3, some 200⟩) ∧
     (sync_secret 300 "db" .bidirectional .use_newest false st_vault_newer).2.vaultStore = st_vault_newer.vaultStore) :=
  ⟨by decide,
   (bidirectional_use_newest_newer_wins 300 "db" st_vault_newer
     ⟨"vault-data", some 3, some 200⟩ ⟨"aws-data", "v7", some 100⟩ 200 100
     (by decide) (by decide) rfl rfl).1 (by decide)⟩

lemma vta_auditOk (now : Nat) (name : String)
    (policy : ConflictResolution) (dry_run : Bool) (st : SyncState) :
    auditOk now name st (sync_vault_to_aws now name policy dry_run st) := by
  unfold auditOk sync_vault_to_aws
  cases hv : get_vault_secret st name with
  | none =>
    refine ⟨fun h => ?_, fun _ => rfl⟩
    simp at h
  | some vs =>
    cases dry_run with
    | true =>
      refine ⟨fun h => ?_, fun _ => rfl⟩
      simp at h
    | false =>
      cases hae : check_aws_secret_exists st name with
      | false =>
        exact ⟨fun _ => ⟨_, rfl, rfl, rfl, rfl, rfl, rfl, rfl⟩,
          fun h => absurd rfl h⟩
      | true =>
        by_cases hp : policy = ConflictResolution.skip
        · subst hp
          refine ⟨fun h => ?_, fun _ => rfl⟩
          simp at h
        · constructor
          · intro _
            simp only [if_neg hp]
            exact ⟨_, rfl, rfl, rfl, rfl, rfl, rfl, rfl⟩
          · intro h
            simp only [if_neg hp] at h
            exact absurd rfl h

end PamLab

namespace PamLab

lemma atv_auditOk (now : Nat) (name : String)
    (policy : ConflictResolution) (dry_run : Bool) (st : SyncState) :
    auditOk now name st (sync_aws_to_vault now name policy dry_run st) := by
  unfold auditOk sync_aws_to_vault
  cases ha : aws_get_secret st name with
  | none =>
    refine ⟨fun h => ?_, fun _ => rfl⟩
    simp at h
  | some asr =>
    cases dry_run with
    | true =>
      refine ⟨fun h => ?_, fun _ => rfl⟩
      simp at h
    | false =>
      cases hve : check_vault_secret_exists st name with
      | false =>
        exact ⟨fun _ => ⟨_, rfl, rfl, rfl, rfl, rfl, rfl, rfl⟩,
          fun h => absurd rfl h⟩
      | true =>
        by_cases hp : policy = ConflictResolution.skip
        · subst hp
          refine ⟨fun h => ?_, fun _ => rfl⟩
          simp at h
        · have hc : (true && decide (policy = ConflictResolution.skip)) = false := by
            simp [hp]
          constructor
          · intro _
            simp only [hc, Bool.false_eq_true, if_false]
            exact ⟨_, rfl, rfl, rfl, rfl, rfl, rfl, rfl⟩
          · intro h
            simp only [hc, Bool.false_eq_true, if_false] at h
            exact absurd rfl h

lemma bidi_auditOk (now : Nat) (name : String)
    (policy : ConflictResolution) (dry_run : Bool) (st : SyncState) :
    auditOk now name st (sync_bidirectional now name policy dry_run st) := by
  unfold sync_bidirectional
  dsimp only
  repeat' split
  all_goals
    first
      | exact vta_auditOk now name _ dry_run st
      | exact atv_auditOk now name _ dry_run st
      | (refine ⟨fun h => ?_, fun _ => rfl⟩; simp [conflictResult] at h)

lemma sync_secret_auditOk (now : Nat) (name : String)
    (direction : SyncDirection) (policy : ConflictResolution)
    (dry_run : Bool) (st : SyncState) :
    auditOk now name st (sync_secret now name direction policy dry_run st) := by
  cases direction with
  | vault_to_aws => exact vta_auditOk now name policy dry_run st
  | aws_to_vault => exact atv_auditOk now name policy dry_run st
  | bidirectional => exact bidi_auditOk now name policy dry_run st

/-- C2 amended: exactly the Success outcomes of `sync_secret` append one
audit entry — operation "sync", status "success", actor "system", the
result's direction and the current timestamp — and every non-success
outcome (Failed, Skipped including dry-run, Conflict) leaves the audit
log unchanged. -/
theorem sync_audit_only_on_success (now : Nat) (name : String)
    (direction : SyncDirection) (policy : ConflictResolution)
    (dry_run : Bool) (st : SyncState) :
    ((sync_secret now name direction policy dry_run st).1.status = "success" →
      ∃ e, (sync_secret now name direction policy dry_run st).2.audit_log =
          st.audit_log ++ [e] ∧
        e.operation = "sync" ∧ e.status = "success" ∧ e.user = "system" ∧
        e.secret_name = name ∧
        e.direction = (sync_secret now name direction policy dry_run st).1.direction ∧
        e.timestamp = now) ∧
    ((sync_secret now name direction policy dry_run st).1.status ≠ "success" →
      (sync_secret now name direction policy dry_run st).2.audit_log =
        st.audit_log) :=
  sync_secret_auditOk now name direction policy dry_run st

/-- C2 counterexample: a terminal Failed outcome (name absent from the
source on a non-dry-run Vault→AWS sync) appends no audit entry, refuting
the claim that every non-dry-run terminal outcome appends one. -/
theorem failed_sync_appends_no_audit :
    (sync_secret 7 "db" .vault_to_aws .use_newest false st_empty).1.status
      = "failed" ∧
    (sync_secret 7 "db" .vault_to_aws .use_newest false st_empty).2.audit_log
      = st_empty.audit_log := by
  decide

/-- C2 witness: a successful Vault→AWS sync from a state holding the
secret only in Vault appends exactly one well-formed audit entry. -/
theorem sync_audit_only_on_success_witness :
    (sync_secret 9 "db" .vault_to_aws .use_newest false st_vault_only).1.status = "success" ∧
    (∃ e, (sync_secret 9 "db" .vault_to_aws .use_newest false st_vault_only).2.audit_log =
        st_vault_only.audit_log ++ [e] ∧
      e.operation = "sync" ∧ e.status = "success" ∧ e.user = "system" ∧
      e.secret_name = "db" ∧
      e.direction = (sync_secret 9 "db" .vault_to_aws .use_newest false st_vault_only).1.direction ∧
      e.timestamp = 9) :=
  ⟨by decide,
   (sync_audit_only_on_success 9 "db" .vault_to_aws .use_newest false st_vault_only).1 (by decide)⟩

end PamLab

namespace PamLab

/-- C3 evaluated at the failing input: a CreateSecret event for "db"
returns 200 but overwrites the active credential with the freshly
generated value (no pending version exists in the model, because the
handler calls `update_secret` on the live secret), and a second
CreateSecret with the same request token overwrites it again with the
next generated value — no idempotency. -/
theorem create_secret_overwrites_active_value :
    ((handle_aws_rotation_event 10 (fun _ _ => true) "pw1" "db" "tok" "createSecret" st_rot).1.statusCode = 200) ∧
    ((handle_aws_rotation_event 10 (fun _ _ => true) "pw1" "db" "tok" "createSecret" st_rot).2.store.lookup "db"
      = some (generate_secret_value "db" "pw1")) ∧
    generate_secret_value "db" "pw1" ≠ v0_demo ∧
    ((handle_aws_rotation_event 11 (fun _ _ => true) "pw2" "db" "tok" "createSecret"
        (handle_aws_rotation_event 10 (fun _ _ => true) "pw1" "db" "tok" "createSecret" st_rot).2).2.store.lookup "db"
      = some (generate_secret_value "db" "pw2")) ∧
    generate_secret_value "db" "pw2" ≠ generate_secret_value "db" "pw1" := by
  decide

/-- C4 evaluated at the failing input: when the prober answers false,
the rotation halts after TestSecret (status codes [200, 200, 500], so
FinishSecret is never invoked), but the active credential is the value
generated in CreateSecret, not the pre-rotation value, and no Failed
result is recorded in the history. -/
theorem failed_test_leaves_overwritten_credential :
    ((run_rotation 10 (fun _ _ => false) "pw1" "db" "tok" st_rot).1 = [200, 200, 500]) ∧
    ((run_rotation 10 (fun _ _ => false) "pw1" "db" "tok" st_rot).2.store.lookup "db"
      = some (generate_secret_value "db" "pw1")) ∧
    generate_secret_value "db" "pw1" ≠ v0_demo ∧
    ((run_rotation 10 (fun _ _ => false) "pw1" "db" "tok" st_rot).2.rotation_history = []) := by
  decide

end PamLab

namespace PamLab

/-- C6: a rotation whose four steps all succeed (secret present, prober
accepts the generated value) returns [200,200,200,200], appends exactly
one Success RotationResult with elapsed duration, and advances the
existing schedule so that next_rotation = last_rotation +
rotation_interval_days (= now + interval). -/
theorem successful_rotation_advances_schedule (now : Nat)
    (prober : String → SecretValue → Bool) (pw secret_id token name : String)
    (st : RotState) (v0 : SecretValue) (sch : RotationSchedule)
    (hx : extract_secret_name_from_arn secret_id = name)
    (hstore : st.store.lookup name = some v0)
    (hsch : st.rotation_schedules.lookup name = some sch)
    (hprobe : prober name (generate_secret_value name pw) = true) :
    (run_rotation now prober pw secret_id token st).1 = [200, 200, 200, 200] ∧
    (run_rotation now prober pw secret_id token st).2.rotation_history =
      st.rotation_history ++
        [{ secret_name := name
           status := RotationStatus.success
           start_time := now
           end_time := some now
           duration_seconds := some (now - now)
           message := "Rotation completed successfully" }] ∧
    (run_rotation now prober pw secret_id token st).2.rotation_schedules.lookup name =
      some { sch with
             last_rotation := some now
             next_rotation := some (now + sch.rotation_interval_days) } := by
  refine ⟨?_, ?_, ?_⟩ <;>
    simp [run_rotation, rotation_steps, run_steps, handle_aws_rotation_event,
      hx, handle_create_secret, handle_set_secret, handle_test_secret,
      handle_finish_secret, update_rotation_schedule, hstore, hsch, hprobe,
      lookup_dictInsert, ok200, err500]

end PamLab

namespace PamLab

/-- C6 witness: a concrete full rotation of "db" with an accepting prober
on a state that has a 30-day schedule. -/
theorem successful_rotation_advances_schedule_witness :
    (run_rotation 50 (fun _ _ => true) "NewPw" "db" "tok" st_rot_sched).1 = [200, 200, 200, 200] ∧
    (run_rotation 50 (fun _ _ => true) "NewPw" "db" "tok" st_rot_sched).2.rotation_history =
      st_rot_sched.rotation_history ++
        [{ secret_name := "db"
           status := RotationStatus.success
           start_time := 50
           end_time := some 50
           duration_seconds := some (50 - 50)
           message := "Rotation completed successfully" }] ∧
    (run_rotation 50 (fun _ _ => true) "NewPw" "db" "tok" st_rot_sched).2.rotation_schedules.lookup "db" =
      some { sched_demo with
             last_rotation := some 50
             next_rotation := some (50 + sched_demo.rotation_interval_days) } :=
  successful_rotation_advances_schedule 50 (fun _ _ => true) "NewPw" "db" "tok" "db"
    st_rot_sched v0_demo sched_demo (by decide) (by decide) (by decide) rfl

lemma missing_isEmpty_true {tags : List String}
    (h : ¬∃ t ∈ required_tags, t ∉ tags) :
    (required_tags.filter (fun t => !(tags.contains t))).isEmpty = true := by
  simp only [List.isEmpty_iff, List.filter_eq_nil_iff]
  push_neg at h
  intro a ha
  simp [h a ha]

lemma missing_isEmpty_false {tags : List String}
    (h : ∃ t ∈ required_tags, t ∉ tags) :
    (required_tags.filter (fun t => !(tags.contains t))).isEmpty = false := by
  rcases h with ⟨t, ht, hnot⟩
  rw [Bool.eq_false_iff]
  intro htrue
  have hnil := List.isEmpty_iff.mp htrue
  have := List.filter_eq_nil_iff.mp hnil t ht
  simp [hnot] at this

/-- C7: the health score equals the spec formula — 100 minus the single
largest matching age bracket (40/25/10), minus 20 when rotation is
disabled, minus a flat 10 when any required tag is missing, clamped at 0
— with the spec's bucket thresholds; and the spec's worked example (a
400-day-old secret, rotation disabled, no tags) scores 30 with bucket
"poor". -/
theorem health_score_matches_spec :
    (∀ (now : Nat) (m : SecretMetadata),
      (calculate_secret_health_score now m).health_score = specHealthScore now m ∧
      (calculate_secret_health_score now m).status = specBucket (specHealthScore now m)) ∧
    (calculate_secret_health_score 400 ⟨"db-password", some 0, false, []⟩).health_score = 30 ∧
    (calculate_secret_health_score 400 ⟨"db-password", some 0, false, []⟩).status = "poor" := by
  refine ⟨fun now m => ?_, by decide, by decide⟩
  unfold calculate_secret_health_score specHealthScore specBucket specAgePenalty
  by_cases hex : ∃ t ∈ required_tags, t ∉ m.tags
  · have hmiss := missing_isEmpty_false hex
    cases m.last_changed with
    | none =>
      cases hrot : m.rotation_enabled <;> simp [hmiss, hex, hrot]
    | some lc =>
      cases hrot : m.rotation_enabled <;>
        by_cases h365 : now - lc > 365 <;>
          by_cases h180 : now - lc > 180 <;>
            by_cases h90 : now - lc > 90 <;>
              simp [hmiss, hex, hrot, h365, h180, h90]
  · have hmiss := missing_isEmpty_true hex
    cases m.last_changed with
    | none =>
      cases hrot : m.rotation_enabled <;> simp [hmiss, hex, hrot]
    | some lc =>
      cases hrot : m.rotation_enabled <;>
        by_cases h365 : now - lc > 365 <;>
          by_cases h180 : now - lc > 180 <;>
            by_cases h90 : now - lc > 90 <;>
              simp [hmiss, hex, hrot, h365, h180, h90]

lemma firstPatternMatch_eq_find (mappings : List (String × String))
    (kl : String) :
    firstPatternMatch mappings kl =
      (mappings.find? (fun pr => strContains kl pr.1)).map Prod.snd := by
  induction mappings with
  | nil => rfl
  | cons hd tl ih =>
    rcases hd with ⟨pat, tgt⟩
    cases hc : strContains kl pat with
    | true => simp [firstPatternMatch, List.find?, hc]
    | false => simp [firstPatternMatch, List.find?, hc, ih]

lemma map_fields_step_eq_spec (mappings : List (String × String)) :
    map_fields_step mappings = spec_map_step mappings := by
  funext acc kv
  unfold map_fields_step spec_map_step spec_resolve_key
  dsimp only
  rw [firstPatternMatch_eq_find]
  cases hl : mappings.lookup (pyLower kv.1) with
  | some t => rfl
  | none =>
    cases hf : (mappings.find? (fun pr => strContains (pyLower kv.1) pr.1)) with
    | some t => rfl
    | none => rfl

lemma spec_fold_skipped (mappings : List (String × String)) :
    ∀ (payload : List (String × String))
      (acc : List (String × String) × List String),
      (payload.foldl (spec_map_step mappings) acc).2 =
        acc.2 ++ (payload.filter
          (fun kv => (spec_resolve_key mappings kv.1).isNone)).map Prod.fst := by
  intro payload
  induction payload with
  | nil => intro acc; simp
  | cons hd tl ih =>
    intro acc
    rw [List.foldl_cons, ih]
    cases hr : spec_resolve_key mappings hd.1 with
    | some t => simp [spec_map_step, hr, List.filter_cons]
    | none => simp [spec_map_step, hr, List.filter_cons]

/-- C8: `map_fields` resolves every key exactly as the spec describes —
exact case-insensitive match first, else the first rule in rule order
whose pattern is a case-insensitive substring of the key, else a
normalized pass-through — and the `skipped` list is precisely the
payload keys (in payload order) that match no rule. -/
theorem map_fields_matches_spec_resolution
    (mappings payload : List (String × String)) :
    map_fields mappings payload = spec_map_fields mappings payload ∧
    (map_fields mappings payload).2 =
      (payload.filter
        (fun kv => (spec_resolve_key mappings kv.1).isNone)).map Prod.fst := by
  have hmain : map_fields mappings payload = spec_map_fields mappings payload := by
    unfold map_fields spec_map_fields
    rw [map_fields_step_eq_spec]
  refine ⟨hmain, ?_⟩
  rw [hmain]
  unfold spec_map_fields
  simpa using spec_fold_skipped mappings payload ([], [])

end PamLab
